import Mathlib

/-!
Verification of `scripts/daily_cam_report.py` (a daily QA reporting script).

The script reads its configuration from the process environment, queries an
issue tracker (Jira) and a test-management service (Zephyr Scale), tallies
test-execution statuses, renders an HTML report and e-mails it.

We give a shallow embedding of the script in Lean: JSON values are an
inductive type, Python dictionary operations that can raise (`d[k]`, and
`d.get(k, default)` on a non-dict receiver) return `Except`, and the whole
module-level script body becomes a function from the environment and the
three HTTP response bodies to a trace of network operations plus a result.
-/

namespace DailyCamReport

/-- JSON values, as decoded by `resp.json()` in the script.  An object keeps
its fields as an association list in document order (Python dicts preserve
insertion order). -/
inductive Json where
  | null
  | bool (b : Bool)
  | num (n : Int)
  | str (s : String)
  | arr (items : List Json)
  | obj (fields : List (String × Json))
  deriving Repr

mutual

/-- Structural equality test for `Json` (Python `==` on decoded JSON). -/
def Json.beq : Json → Json → Bool
  | .null, .null => true
  | .bool a, .bool b => a == b
  | .num a, .num b => a == b
  | .str a, .str b => a == b
  | .arr a, .arr b => Json.beqList a b
  | .obj a, .obj b => Json.beqFields a b
  | _, _ => false

def Json.beqList : List Json → List Json → Bool
  | [], [] => true
  | a :: as, b :: bs => Json.beq a b && Json.beqList as bs
  | _, _ => false

def Json.beqFields : List (String × Json) → List (String × Json) → Bool
  | [], [] => true
  | (ka, va) :: as, (kb, vb) :: bs => ka == kb && Json.beq va vb && Json.beqFields as bs
  | _, _ => false

end

mutual

theorem Json.eq_of_beq : ∀ {a b : Json}, Json.beq a b = true → a = b
  | .null, .null, _ => rfl
  | .bool _, .bool _, h => congrArg Json.bool (beq_iff_eq.mp h)
  | .num _, .num _, h => congrArg Json.num (beq_iff_eq.mp h)
  | .str _, .str _, h => congrArg Json.str (beq_iff_eq.mp h)
  | .arr _, .arr _, h => congrArg Json.arr (Json.eqList_of_beqList h)
  | .obj _, .obj _, h => congrArg Json.obj (Json.eqFields_of_beqFields h)
  | .null, .bool _, h | .null, .num _, h | .null, .str _, h
  | .null, .arr _, h | .null, .obj _, h
  | .bool _, .null, h | .bool _, .num _, h | .bool _, .str _, h
  | .bool _, .arr _, h | .bool _, .obj _, h
  | .num _, .null, h | .num _, .bool _, h | .num _, .str _, h
  | .num _, .arr _, h | .num _, .obj _, h
  | .str _, .null, h | .str _, .bool _, h | .str _, .num _, h
  | .str _, .arr _, h | .str _, .obj _, h
  | .arr _, .null, h | .arr _, .bool _, h | .arr _, .num _, h
  | .arr _, .str _, h | .arr _, .obj _, h
  | .obj _, .null, h | .obj _, .bool _, h | .obj _, .num _, h
  | .obj _, .str _, h | .obj _, .arr _, h => Bool.noConfusion h

theorem Json.eqList_of_beqList : ∀ {a b : List Json}, Json.beqList a b = true → a = b
  | [], [], _ => rfl
  | a :: as, b :: bs, h => by
      rw [Json.beqList, Bool.and_eq_true] at h
      rw [Json.eq_of_beq h.1, Json.eqList_of_beqList h.2]
  | [], _ :: _, h => Bool.noConfusion h
  | _ :: _, [], h => Bool.noConfusion h

theorem Json.eqFields_of_beqFields :
    ∀ {a b : List (String × Json)}, Json.beqFields a b = true → a = b
  | [], [], _ => rfl
  | (ka, va) :: as, (kb, vb) :: bs, h => by
      rw [Json.beqFields, Bool.and_eq_true, Bool.and_eq_true] at h
      rw [beq_iff_eq.mp h.1.1, Json.eq_of_beq h.1.2,
        Json.eqFields_of_beqFields h.2]
  | [], _ :: _, h => Bool.noConfusion h
  | _ :: _, [], h => Bool.noConfusion h

end

mutual

theorem Json.beq_refl : ∀ a : Json, Json.beq a a = true
  | .null => rfl
  | .bool _ => by simp [Json.beq]
  | .num _ => by simp [Json.beq]
  | .str _ => by simp [Json.beq]
  | .arr a => Json.beqList_refl a
  | .obj a => Json.beqFields_refl a

theorem Json.beqList_refl : ∀ a : List Json, Json.beqList a a = true
  | [] => rfl
  | a :: as => by
      rw [Json.beqList, Bool.and_eq_true]
      exact ⟨Json.beq_refl a, Json.beqList_refl as⟩

theorem Json.beqFields_refl : ∀ a : List (String × Json), Json.beqFields a a = true
  | [] => rfl
  | (k, v) :: as => by
      rw [Json.beqFields, Bool.and_eq_true, Bool.and_eq_true]
      exact ⟨⟨by simp, Json.beq_refl v⟩, Json.beqFields_refl as⟩

end

instance : DecidableEq Json := fun a b =>
  decidable_of_iff (Json.beq a b = true)
    ⟨Json.eq_of_beq, fun h => h ▸ Json.beq_refl a⟩

/-- Look a key up in an object's field list (first binding wins; keys of a
Python dict are unique anyway). -/
def lookupField : List (String × Json) → String → Option Json
  | [], _ => none
  | (k, v) :: rest, key => if k = key then some v else lookupField rest key

/-- The Python exception classes the script can raise while handling
decoded data or the environment. -/
inductive PyErr where
  | keyError (k : String)
  | attributeError
  | typeError
  | valueError
  deriving Repr, DecidableEq

/-- Python truthiness of a decoded-JSON value: `None`, `False`, `0`, `""`,
`[]` and an empty dict are falsy, everything else is truthy. -/
def truthy : Json → Bool
  | .null => false
  | .bool b => b
  | .num n => n != 0
  | .str s => !s.isEmpty
  | .arr items => !items.isEmpty
  | .obj fields => !fields.isEmpty

/-- Python `a or b` on decoded-JSON values. -/
def pyOr (a b : Json) : Json := if truthy a then a else b

/-- Python `d.get(k, default)`: on a dict, the stored value when the key is
present (even when that stored value is `None`), `default` when it is
absent; on any non-dict receiver (a list, a string, `None`, ...) the
attribute lookup of `.get` raises `AttributeError`. -/
def pyDictGet (d : Json) (k : String) (dflt : Json) : Except PyErr Json :=
  match d with
  | .obj fields =>
    match lookupField fields k with
    | some v => .ok v
    | none => .ok dflt
  | _ => .error .attributeError

/-- Python `d[k]` with a string key: `KeyError` when the key is absent from
a dict, `TypeError` when the receiver is not a dict. -/
def pySubscript (d : Json) (k : String) : Except PyErr Json :=
  match d with
  | .obj fields =>
    match lookupField fields k with
    | some v => .ok v
    | none => .error (.keyError k)
  | _ => .error .typeError

/-- Python `str()` of a decoded-JSON value, as applied by f-string
interpolation.  Lists and dicts are modelled only up to a placeholder
rendering: no claim concerns the textual form of a list or dict cell, and
the rows the script builds hold only strings. -/
def pyStr : Json → String
  | .null => "None"
  | .bool true => "True"
  | .bool false => "False"
  | .num n => toString n
  | .str s => s
  | .arr _ => "[...]"
  | .obj _ => "[object]"

/-- The Zephyr response normalization (line 76):
`executions = data.get("executions", data)  # support both shapes`. -/
def zephyrNormalize (data : Json) : Except PyErr Json :=
  pyDictGet data "executions" data

/-- The response handling of `jira_search` (line 54):
`data.get("issues", [])`. -/
def jiraIssues (data : Json) : Except PyErr Json :=
  pyDictGet data "issues" (.arr [])

/-- Python `for e in x`: lists yield their items; strings yield their
characters, dicts their keys; `None`, numbers and booleans are not
iterable (`TypeError`). -/
def pyIter (x : Json) : Except PyErr (List Json) :=
  match x with
  | .arr items => .ok items
  | .str s => .ok (s.data.map fun c => .str (String.mk [c]))
  | .obj fields => .ok (fields.map fun f => .str f.1)
  | _ => .error .typeError

/-- Python `"".join(parts)`, as used by `to_table`. -/
def sjoin : List String → String
  | [] => ""
  | part :: rest => part ++ sjoin rest

/-! ## Aggregator: `status_counts` (line 142) -/

/-- The Counter key contributed by one execution record:
`(e.get("status") or "Unknown")`. -/
def statusKey (e : Json) : Except PyErr Json :=
  match pyDictGet e "status" .null with
  | .error err => .error err
  | .ok s => .ok (pyOr s (.str "Unknown"))

/-- Evaluate the generator `(f e for e in es)` left to right; the first
raised error propagates, as in Python. -/
def mapExcept (f : α → Except PyErr β) : List α → Except PyErr (List β)
  | [] => .ok []
  | e :: rest =>
    match f e with
    | .error err => .error err
    | .ok k =>
      match mapExcept f rest with
      | .error err => .error err
      | .ok ks => .ok (k :: ks)

/-- `collections.Counter(ks)` as an association list from each distinct key
to its multiplicity. -/
def mkCounter (ks : List Json) : List (Json × Nat) :=
  ks.dedup.map fun k => (k, ks.count k)

/-- `counter.get(k, 0)`, the read access the script uses downstream
(`status_counts.get('Pass', 0)` etc.). -/
def counterGet : List (Json × Nat) → Json → Nat
  | [], _ => 0
  | (k, n) :: rest, q => if k = q then n else counterGet rest q

/-- `status_counts = Counter((e.get("status") or "Unknown") for e in executions)`
(line 142). -/
def status_counts (executions : List Json) : Except PyErr (List (Json × Nat)) :=
  match mapExcept statusKey executions with
  | .error err => .error err
  | .ok ks => .ok (mkCounter ks)

/-! ## Renderer helpers (lines 80-111) -/

/-- `html_link(href, text)` (lines 80-81). -/
def html_link (href text : String) : String :=
  "<a href='" ++ href ++ "'>" ++ text ++ "</a>"

/-- Python `s.replace("<", "&lt;")` on the character list of `s`. -/
def replaceLtList : List Char → List Char
  | [] => []
  | c :: rest =>
    if c = '<' then '&' :: 'l' :: 't' :: ';' :: replaceLtList rest
    else c :: replaceLtList rest

/-- `.replace("<", "&lt;")`: a string method, so any non-string receiver
raises `AttributeError`. -/
def pyReplaceLt (v : Json) : Except PyErr Json :=
  match v with
  | .str s => .ok (.str (String.mk (replaceLtList s.data)))
  | _ => .error .attributeError

/-- Sequencing of two Python expressions where the first may raise: the
exception propagates, otherwise evaluation continues with the value. -/
def pyBind (x : Except PyErr α) (g : α → Except PyErr β) : Except PyErr β :=
  match x with
  | .error err => .error err
  | .ok v => g v

theorem pyBind_ok {α β : Type} {x : Except PyErr α} {g : α → Except PyErr β}
    {r : β} (h : pyBind x g = .ok r) : ∃ v, x = .ok v ∧ g v = .ok r := by
  cases x with
  | error e => cases h
  | ok v => exact ⟨v, rfl, h⟩

/-- `jira_row(issue)` (lines 84-97): the five cells of one issue row, in
program order.  `jira_base` stands for the `JIRA_BASE` global. -/
def jira_row (jira_base : String) (issue : Json) : Except PyErr (List Json) :=
  pyBind (pySubscript issue "fields") fun f =>
  pyBind (pySubscript issue "key") fun key =>
  pyBind (pyDictGet f "summary" .null) fun rawSummary =>
  pyBind (pyReplaceLt (pyOr rawSummary (.str ""))) fun summary =>
  pyBind (pyDictGet f "priority" (.obj [])) fun priorityObj =>
  pyBind (pyDictGet priorityObj "name" (.str "")) fun priority =>
  pyBind (pyDictGet f "status" (.obj [])) fun statusObj =>
  pyBind (pyDictGet statusObj "name" (.str "")) fun status =>
  pyBind (pyDictGet f "assignee" (.obj [])) fun assigneeObj =>
  pyBind (pyDictGet assigneeObj "displayName" (.str "—")) fun assignee =>
    .ok [ .str (html_link (jira_base ++ "/browse/" ++ pyStr key) (pyStr key)),
          summary, priority, status, assignee ]

/-- One rendered header cell of `to_table`. -/
def thCell (h : String) : String := "<th>" ++ h ++ "</th>"

/-- One rendered body row of `to_table`: the cells pass through Python
`str()` when interpolated into the f-string. -/
def trRow (row : List Json) : String :=
  "<tr>" ++ sjoin (row.map fun cell => "<td>" ++ pyStr cell ++ "</td>") ++ "</tr>"

/-- `to_table(rows, headers)` (lines 100-111). -/
def to_table (rows : List (List Json)) (headers : List String) : String :=
  let th := sjoin (headers.map thCell)
  let tr := sjoin (rows.map trRow)
  "<table border='1' cellspacing='0' cellpadding='6'>"
    ++ "<thead><tr>" ++ th ++ "</tr></thead>"
    ++ "<tbody>" ++ tr ++ "</tbody>"
    ++ "</table>"

/-! ## Configuration resolution (lines 12-38) -/

/-- The process environment: a partial map from variable names to values. -/
def Env := String → Option String

/-- The resolved module-level configuration. -/
structure Config where
  jira_base : String
  jira_email : String
  jira_token : String
  project_key : String
  z_token : String
  smtp_host : String
  smtp_port : Int
  smtp_user : String
  smtp_pass : String
  mail_to : String
  mail_from : String
  deriving Repr

/-- `os.environ[k]`: raises `KeyError` when the variable is absent. -/
def envGet (env : Env) (k : String) : Except PyErr String :=
  match env k with
  | some v => .ok v
  | none => .error (.keyError k)

/-- `Z_BASE` (line 18), a hard-coded constant. -/
def Z_BASE : String := "https://api.zephyrscale.smartbear.com/v2"

/-- Python whitespace as stripped by `str.strip()` and around `int()`
literals. -/
def isPySpace (c : Char) : Bool :=
  c = ' ' || c = '\t' || c = '\n' || c = '\x0d' || c = '\x0b' || c = '\x0c'

/-- The digit run of a Python integer literal: after the first digit,
further digits with single underscores allowed only between digits. -/
def pyDigitRun : List Char → Nat → Option Nat
  | [], acc => some acc
  | c :: rest, acc =>
    if c.isDigit then pyDigitRun rest (acc * 10 + (c.toNat - 48))
    else if c = '_' then
      match rest with
      | [] => none
      | d :: rest2 =>
        if d.isDigit then pyDigitRun rest2 (acc * 10 + (d.toNat - 48))
        else none
    else none

/-- Strip one optional leading sign, yielding the sign and the remaining
characters. -/
def pySignSplit (l : List Char) : Int × List Char :=
  match l with
  | '+' :: rest => (1, rest)
  | '-' :: rest => (-1, rest)
  | _ => (1, l)

/-- The digits of a Python integer literal after the sign: at least one
ASCII digit, or `ValueError`. -/
def pyIntStart (sign : Int) : List Char → Except PyErr Int
  | [] => .error .valueError
  | c :: rest =>
    if c.isDigit then
      match pyDigitRun (c :: rest) 0 with
      | some n => .ok (sign * n)
      | none => .error .valueError
    else .error .valueError

/-- The body of Python `int(s)` after whitespace stripping: an optional
sign and then at least one ASCII digit, with single underscores allowed
between digits; anything else raises `ValueError`. -/
def pyIntCore (l : List Char) : Except PyErr Int :=
  pyIntStart (pySignSplit l).1 (pySignSplit l).2

/-- Python `int(s)` on a string (line 28): optional surrounding
whitespace, an optional sign, then at least one ASCII digit; anything else
raises `ValueError`.  (The non-ASCII digits Python would also accept are
not modelled; no claim depends on them.) -/
def pyIntParse (s : String) : Except PyErr Int :=
  pyIntCore (((s.data.dropWhile isPySpace).reverse.dropWhile isPySpace).reverse)

/-- Every failure of `int()` is a `ValueError`. -/
theorem pyIntCore_error {l : List Char} {e : PyErr}
    (h : pyIntCore l = .error e) : e = .valueError := by
  rw [pyIntCore] at h
  cases hX : (pySignSplit l).2 with
  | nil => rw [hX] at h; cases h; rfl
  | cons c rest =>
    rw [hX, pyIntStart] at h
    by_cases hd : c.isDigit
    · rw [if_pos hd] at h
      cases hr : pyDigitRun (c :: rest) 0 with
      | some n => rw [hr] at h; cases h
      | none => rw [hr] at h; cases h; rfl
    · rw [if_neg hd] at h; cases h; rfl

theorem pyIntParse_error {s : String} {e : PyErr}
    (h : pyIntParse s = .error e) : e = .valueError :=
  pyIntCore_error h

/-- The module-level environment reads (lines 12-33), in program order.
`os.environ[k]` raises `KeyError` when absent; `os.environ.get(k, d)`
falls back to the default; `int(...)` on the port raises `ValueError` for
a non-integer string. -/
def resolveConfig (env : Env) : Except PyErr Config :=
  match envGet env "JIRA_BASE" with
  | .error err => .error err
  | .ok jira_base =>
  match envGet env "JIRA_EMAIL" with
  | .error err => .error err
  | .ok jira_email =>
  match envGet env "JIRA_API_TOKEN" with
  | .error err => .error err
  | .ok jira_token =>
  let project_key := (env "PROJECT_KEY").getD "CAM"
  match envGet env "ZEPHYR_SCALE_TOKEN" with
  | .error err => .error err
  | .ok z_token =>
  match envGet env "SMTP_HOST" with
  | .error err => .error err
  | .ok smtp_host =>
  match pyIntParse ((env "SMTP_PORT").getD "587") with
  | .error err => .error err
  | .ok smtp_port =>
  match envGet env "SMTP_USER" with
  | .error err => .error err
  | .ok smtp_user =>
  match envGet env "SMTP_PASS" with
  | .error err => .error err
  | .ok smtp_pass =>
  match envGet env "MAIL_TO" with
  | .error err => .error err
  | .ok mail_to =>
  let mail_from := (env "MAIL_FROM").getD smtp_user
  .ok { jira_base, jira_email, jira_token, project_key, z_token,
        smtp_host, smtp_port, smtp_user, smtp_pass, mail_to, mail_from }

/-- The eight environment variables read with `os.environ[...]` (no
default): their absence is fatal. -/
def requiredKeys : List String :=
  ["JIRA_BASE", "JIRA_EMAIL", "JIRA_API_TOKEN", "ZEPHYR_SCALE_TOKEN",
   "SMTP_HOST", "SMTP_USER", "SMTP_PASS", "MAIL_TO"]

/-! ## Delivery composition (lines 181-187) -/

/-- Python `s.split(",")` on the character list: split at every comma,
keeping empty pieces; the split of the empty string is `[""]`. -/
def splitCommaAux : List Char → List Char → List (List Char)
  | [], acc => [acc.reverse]
  | c :: rest, acc =>
    if c = ',' then acc.reverse :: splitCommaAux rest []
    else splitCommaAux rest (c :: acc)

/-- Python `s.split(",")`. -/
def pySplitComma (s : String) : List String :=
  (splitCommaAux s.data []).map fun cs => String.mk cs

/-- Python `s.strip()`: drop leading and trailing whitespace. -/
def pyStrip (s : String) : String :=
  String.mk (((s.data.dropWhile fun c => isPySpace c).reverse.dropWhile
    fun c => isPySpace c).reverse)

/-- `[addr.strip() for addr in MAIL_TO.split(",")]` (line 184). -/
def parseRecipients (mail_to : String) : List String :=
  (pySplitComma mail_to).map pyStrip

/-- `msg["Subject"] = f"Daily QA Report — {today_str} (CAM)"` (line 182).
Only `today_str` is interpolated: the trailing `(CAM)` is a literal in the
f-string, not the `PROJECT_KEY` global. -/
def subjectLine (today_str : String) : String :=
  "Daily QA Report — " ++ today_str ++ " (CAM)"

/-- The composed outgoing message (lines 181-187). -/
structure EmailMsg where
  subject : String
  sender : String
  toAddrs : List String
  plainBody : String
  htmlBody : String
  deriving Repr

/-- Lines 181-187: subject, sender, recipient list, plain-text fallback
part and HTML alternative part. -/
def composeMsg (cfg : Config) (today_str : String) (html : String) : EmailMsg :=
  { subject := subjectLine today_str
    sender := cfg.mail_from
    toAddrs := parseRecipients cfg.mail_to
    plainBody := "This email contains HTML content. Please use an HTML-capable client."
    htmlBody := html }

/-! ## URL encoding (`urllib.parse.urlencode`, line 68) -/

/-- An uppercase hexadecimal digit. -/
def hexDigit (n : Nat) : String :=
  if n < 10 then toString n
  else String.mk [Char.ofNat (65 + (n - 10))]

/-- `%HH` percent-encoding of one byte value. -/
def percentByte (b : Nat) : String :=
  "%" ++ hexDigit (b / 16 % 16) ++ hexDigit (b % 16)

/-- UTF-8 bytes of a Unicode code point, as Nat values. -/
def utf8Bytes (n : Nat) : List Nat :=
  if n < 0x80 then [n]
  else if n < 0x800 then [0xC0 + n / 0x40, 0x80 + n % 0x40]
  else if n < 0x10000 then
    [0xE0 + n / 0x1000, 0x80 + n / 0x40 % 0x40, 0x80 + n % 0x40]
  else
    [0xF0 + n / 0x40000, 0x80 + n / 0x1000 % 0x40, 0x80 + n / 0x40 % 0x40,
     0x80 + n % 0x40]

/-- `urllib.parse.quote_plus` on one character: space becomes `+`,
unreserved characters pass through, everything else is percent-encoded
bytewise. -/
def quotePlusChar (c : Char) : String :=
  if c = ' ' then "+"
  else if c.isAlphanum || c = '_' || c = '.' || c = '-' || c = '~' then String.mk [c]
  else sjoin ((utf8Bytes c.toNat).map percentByte)

/-- `urllib.parse.quote_plus` of a string. -/
def quotePlus (s : String) : String :=
  sjoin (s.data.map quotePlusChar)

/-- `urllib.parse.urlencode` of an ordered key-value mapping. -/
def urlencode (qs : List (String × String)) : String :=
  String.intercalate "&" (qs.map fun kv => quotePlus kv.1 ++ "=" ++ quotePlus kv.2)


/-! ## Whole-document rendering (lines 146-177) and the script body -/

/-- The table headers used for both issue tables (lines 163 and 167). -/
def tableHeaders : List String := ["Key", "Summary", "Priority", "Status", "Assignee"]

/-- The `html_body` f-string (lines 146-177), with every interpolation made
explicit.  `defects_today` and `open_blockers` are the decoded issue lists
(for the `len(...)` interpolations); `defectRows` and `blockerRows` are the
corresponding `jira_row` outputs. -/
def html_body (cfg : Config) (today_str start_iso end_iso : String)
    (executions : List Json) (t : List (Json × Nat))
    (defects_today open_blockers : List Json)
    (defectRows blockerRows : List (List Json)) : String :=
  "\n<html>\n  <body>\n    <h2>Daily QA Report — " ++ today_str
    ++ " (Project: " ++ cfg.project_key ++ ")</h2>\n\n"
    ++ "    <h3>Zephyr Scale — Test Executions Today</h3>\n    <ul>\n"
    ++ "      <li>Total executed today: " ++ toString executions.length ++ "</li>\n"
    ++ "      <li>Pass: " ++ toString (counterGet t (.str "Pass")) ++ "</li>\n"
    ++ "      <li>Fail: " ++ toString (counterGet t (.str "Fail")) ++ "</li>\n"
    ++ "      <li>Blocked: " ++ toString (counterGet t (.str "Blocked")) ++ "</li>\n"
    ++ "      <li>Not Executed: " ++ toString (counterGet t (.str "Not Executed")) ++ "</li>\n"
    ++ "      <li>Other/Unknown: " ++ toString (counterGet t (.str "Unknown")) ++ "</li>\n"
    ++ "    </ul>\n\n"
    ++ "    <h3>Defects Created Today (Jira – CAM): " ++ toString defects_today.length
    ++ "</h3>\n    " ++ to_table defectRows tableHeaders ++ "\n\n"
    ++ "    <h3>Open Blockers (Priority Blocker/Highest): " ++ toString open_blockers.length
    ++ "</h3>\n    " ++ to_table blockerRows tableHeaders ++ "\n\n"
    ++ "    <p style=\"font-size: 12px; color: #666;\">\n"
    ++ "      Generated automatically from Jira Cloud (" ++ cfg.jira_base ++ ")\n"
    ++ "      and Zephyr Scale Cloud APIs.<br/>\n"
    ++ "      Window: " ++ start_iso ++ " to " ++ end_iso ++ " (UTC).<br/>\n"
    ++ "      Sent via Gmail SMTP as " ++ cfg.smtp_user ++ ".\n"
    ++ "    </p>\n  </body>\n</html>\n"

/-- One observable network-side operation of the script, in the order it is
issued: the two Jira POSTs, the Zephyr GET, then the four steps of the SMTP
session. -/
inductive NetCall where
  | httpPost (url : String) (jql : String)
  | httpGet (url : String)
  | smtpConnect (host : String) (port : Int)
  | smtpStartTls
  | smtpLogin (user : String)
  | smtpSendMessage
  deriving Repr, DecidableEq

/-- The two JQL query strings (lines 116-128). -/
def jqlDefectsToday (project_key : String) : String :=
  "project = " ++ project_key ++ " AND issuetype = Bug "
    ++ "AND created >= startOfDay() ORDER BY priority DESC"

def jqlOpenBlockers (project_key : String) : String :=
  "project = " ++ project_key ++ " AND issuetype = Bug "
    ++ "AND priority in (Blocker, Highest) AND statusCategory != Done"

/-- The Zephyr request URL (lines 62-68). -/
def zephyrUrl (project_key start_iso end_iso : String) : String :=
  Z_BASE ++ "/testexecutions?"
    ++ urlencode [("projectKey", project_key), ("from", start_iso),
                  ("to", end_iso), ("maxResults", "1000")]

/-- The whole module-level script body as a function of the environment, the
current UTC date (its ISO form `today_str`) and the three HTTP response
bodies.  It returns the trace of network operations actually issued together
with either the composed outgoing message or the first uncaught error.  A
response is modelled as already decoded JSON: HTTP transport errors are out
of scope of every claim, so `raise_for_status()` never fires here. -/
def runScript (env : Env) (today_str : String) (r1 r2 rz : Json) :
    List NetCall × Except PyErr EmailMsg :=
  match resolveConfig env with
  | .error e => ([], .error e)
  | .ok cfg =>
    let start_iso := today_str ++ "T00:00:00Z"
    let end_iso := today_str ++ "T23:59:59Z"
    let call1 := NetCall.httpPost (cfg.jira_base ++ "/rest/api/3/search")
      (jqlDefectsToday cfg.project_key)
    match jiraIssues r1 with
    | .error e => ([call1], .error e)
    | .ok defectsJson =>
      let call2 := NetCall.httpPost (cfg.jira_base ++ "/rest/api/3/search")
        (jqlOpenBlockers cfg.project_key)
      match jiraIssues r2 with
      | .error e => ([call1, call2], .error e)
      | .ok blockersJson =>
        let call3 := NetCall.httpGet (zephyrUrl cfg.project_key start_iso end_iso)
        let calls := [call1, call2, call3]
        match zephyrNormalize rz with
        | .error e => (calls, .error e)
        | .ok executionsJson =>
          match pyIter executionsJson with
          | .error e => (calls, .error e)
          | .ok executions =>
            match status_counts executions with
            | .error e => (calls, .error e)
            | .ok t =>
              match pyIter defectsJson with
              | .error e => (calls, .error e)
              | .ok defects_today =>
                match mapExcept (jira_row cfg.jira_base) defects_today with
                | .error e => (calls, .error e)
                | .ok defectRows =>
                  match pyIter blockersJson with
                  | .error e => (calls, .error e)
                  | .ok open_blockers =>
                    match mapExcept (jira_row cfg.jira_base) open_blockers with
                    | .error e => (calls, .error e)
                    | .ok blockerRows =>
                      let html := html_body cfg today_str start_iso end_iso
                        executions t defects_today open_blockers defectRows blockerRows
                      let msg := composeMsg cfg today_str html
                      (calls ++ [NetCall.smtpConnect cfg.smtp_host cfg.smtp_port,
                                 NetCall.smtpStartTls,
                                 NetCall.smtpLogin cfg.smtp_user,
                                 NetCall.smtpSendMessage],
                       .ok msg)

/-! # Supporting lemmas -/

theorem dropWhile_dropWhile (p : Char → Bool) (l : List Char) :
    (l.dropWhile p).dropWhile p = l.dropWhile p := by
  induction l with
  | nil => rfl
  | cons c l ih =>
    by_cases hp : p c
    · simp [List.dropWhile_cons, hp, ih]
    · simp [List.dropWhile_cons, hp]

theorem dropWhile_eq_self_of_prefix (p : Char → Bool) {t l : List Char}
    (hl : l.dropWhile p = l) (ht : t <+: l) : t.dropWhile p = t := by
  cases t with
  | nil => rfl
  | cons c t0 =>
    obtain ⟨rest, rfl⟩ := ht
    by_cases hp : p c
    · exfalso
      rw [List.cons_append, List.dropWhile_cons, if_pos hp] at hl
      have hle := (List.dropWhile_suffix (l := t0 ++ rest) p).length_le
      rw [hl] at hle
      simp at hle
    · rw [List.dropWhile_cons, if_neg hp]

theorem pyStrip_idem (s : String) : pyStrip (pyStrip s) = pyStrip s := by
  apply String.ext
  show ((((((s.data.dropWhile isPySpace).reverse.dropWhile isPySpace).reverse).dropWhile
      isPySpace).reverse.dropWhile isPySpace).reverse) =
    (((s.data.dropWhile isPySpace).reverse.dropWhile isPySpace).reverse)
  set d1 := s.data.dropWhile isPySpace with hd1
  set r := d1.reverse.dropWhile isPySpace with hr
  have hfix : r.reverse.dropWhile isPySpace = r.reverse := by
    apply dropWhile_eq_self_of_prefix isPySpace (l := d1)
    · rw [hd1]; exact dropWhile_dropWhile _ _
    · have hsuff : r <:+ d1.reverse := by rw [hr]; exact List.dropWhile_suffix _
      have := List.reverse_prefix.mpr hsuff
      rwa [List.reverse_reverse] at this
  rw [hfix, List.reverse_reverse, hr, dropWhile_dropWhile]

theorem splitCommaAux_no_comma {l : List Char} (h : ∀ c ∈ l, c ≠ ',') :
    ∀ acc, splitCommaAux l acc = [acc.reverse ++ l] := by
  induction l with
  | nil => intro acc; simp [splitCommaAux]
  | cons c l ih =>
    intro acc
    have hc : c ≠ ',' := h c (by simp)
    rw [splitCommaAux, if_neg hc, ih (fun x hx => h x (by simp [hx]))]
    simp

/-! # Claims -/

/-- C1: the spec claims the execution-listing client accepts both a bare
top-level array and an object wrapping the array under "executions" and
normalizes both to the same sequence.  The code line
`executions = data.get("executions", data)  # support both shapes` calls
`.get` on the decoded value, which on a Python list raises
`AttributeError`: every bare-array response crashes the run, while the
wrapped shape of the same data is returned intact.  This contradicts the
code's own comment, so the claim is right and the code has a bug. -/
theorem zephyr_normalize_rejects_bare_array (items : List Json) :
    zephyrNormalize (.arr items) = .error .attributeError
      ∧ zephyrNormalize (.obj [("executions", .arr items)]) = .ok (.arr items) :=
  ⟨rfl, rfl⟩

/-- C9: recipient parsing splits the configured string on commas and strips
surrounding whitespace from each resulting address: the documented example
parses to exactly the three addresses, and every parsed address is a fixed
point of stripping (no surrounding whitespace remains). -/
theorem recipient_parsing :
    parseRecipients "a@x.com, b@y.com,c@z.com" = ["a@x.com", "b@y.com", "c@z.com"]
      ∧ ∀ s a, a ∈ parseRecipients s → pyStrip a = a := by
  refine ⟨by decide, ?_⟩
  intro s a ha
  obtain ⟨b, _, rfl⟩ := List.mem_map.mp ha
  exact pyStrip_idem b

/-- C10: when `MAIL_TO` is empty or all-whitespace, `MAIL_TO.split(",")`
yields the one-element list `[""]` (after stripping), not an empty list:
the message still carries one (empty) recipient entry. -/
theorem blank_mail_to_single_empty_recipient (s : String)
    (h : ∀ c ∈ s.data, isPySpace c) : parseRecipients s = [""] := by
  have hnc : ∀ c ∈ s.data, c ≠ ',' := by
    intro c hc heq
    have := h c hc
    rw [heq] at this
    simp [isPySpace] at this
  have hsplit : pySplitComma s = [String.mk s.data] := by
    rw [pySplitComma, splitCommaAux_no_comma hnc]
    simp
  have hstrip : pyStrip (String.mk s.data) = "" := by
    apply String.ext
    show ((((String.mk s.data).data.dropWhile isPySpace).reverse.dropWhile
      isPySpace).reverse) = "".data
    have : (String.mk s.data).data = s.data := rfl
    rw [this, List.dropWhile_eq_nil_iff.mpr h]
    rfl
  rw [parseRecipients, hsplit]
  simp [hstrip]

/-- A concrete configuration whose project key is not the default "CAM",
used to exhibit the subject-line divergence. -/
def cfgXYZ : Config :=
  { jira_base := "https://jira.example", jira_email := "qa@example.com",
    jira_token := "tok", project_key := "XYZ", z_token := "ztok",
    smtp_host := "smtp.example", smtp_port := 587,
    smtp_user := "qa@example.com", smtp_pass := "pw",
    mail_to := "a@x.com", mail_from := "qa@example.com" }

/-- C5 counterexample: with the configured project key "XYZ", the subject of
the outgoing message does not contain "XYZ" anywhere: the claim that the
subject embeds the configured project key is false.  (Line 182 interpolates
only the date; the trailing "(CAM)" is a literal.) -/
theorem subject_project_key_counterexample :
    ¬ (cfgXYZ.project_key.data <:+:
        (composeMsg cfgXYZ "2025-06-01" "").subject.data) := by
  decide

/-- C5 amended: the subject of the outgoing email is the fixed template
embedding the run date and the literal text "(CAM)", and it is independent
of the configured project key (which therefore does not appear when it is
not "CAM"). -/
theorem subject_fixed_template (cfg cfg2 : Config) (today html html2 : String) :
    (composeMsg cfg today html).subject = (composeMsg cfg2 today html2).subject
      ∧ today.data <:+: (composeMsg cfg today html).subject.data
      ∧ "(CAM)".data <:+: (composeMsg cfg today html).subject.data := by
  have hdata : (composeMsg cfg today html).subject.data =
      "Daily QA Report — ".data ++ today.data ++ " (CAM)".data := by
    show ("Daily QA Report — " ++ today ++ " (CAM)").data = _
    rw [String.data_append, String.data_append]
  refine ⟨rfl, ⟨"Daily QA Report — ".data, " (CAM)".data, hdata⟩, ?_⟩
  refine ⟨"Daily QA Report — ".data ++ today.data ++ [' '], [], ?_⟩
  rw [hdata, show (" (CAM)".data : List Char) = [' '] ++ "(CAM)".data from by decide]
  simp

theorem mapExcept_length {α β : Type} {f : α → Except PyErr β} :
    ∀ {l : List α} {ks : List β}, mapExcept f l = .ok ks → ks.length = l.length
  | [], ks, h => by
      rw [mapExcept] at h
      cases h
      rfl
  | e :: rest, ks, h => by
      rw [mapExcept] at h
      cases hfe : f e with
      | error err => rw [hfe] at h; cases h
      | ok k =>
        rw [hfe] at h
        cases hrest : mapExcept f rest with
        | error err => rw [hrest] at h; cases h
        | ok tail =>
          rw [hrest] at h
          cases h
          simp [mapExcept_length hrest]

theorem counterGet_map_mem {f : Json → Nat} :
    ∀ {l : List Json} {q : Json}, q ∈ l →
      counterGet (l.map fun k => (k, f k)) q = f q := by
  intro l
  induction l with
  | nil => intro q h; cases h
  | cons k l ih =>
    intro q h
    rw [List.map_cons, counterGet]
    by_cases hq : k = q
    · rw [if_pos hq, hq]
    · rw [if_neg hq]
      exact ih ((List.mem_cons.mp h).resolve_left fun he => hq he.symm)

theorem counterGet_map_not_mem {f : Json → Nat} :
    ∀ {l : List Json} {q : Json}, q ∉ l →
      counterGet (l.map fun k => (k, f k)) q = 0 := by
  intro l
  induction l with
  | nil => intro q _; rfl
  | cons k l ih =>
    intro q h
    rw [List.map_cons, counterGet,
      if_neg (fun he => h (by rw [← he]; exact List.mem_cons_self k l))]
    exact ih fun hq => h (List.mem_cons_of_mem k hq)

theorem counterGet_mkCounter (ks : List Json) (q : Json) :
    counterGet (mkCounter ks) q = ks.count q := by
  rw [mkCounter]
  by_cases h : q ∈ ks
  · exact counterGet_map_mem (List.mem_dedup.mpr h)
  · rw [counterGet_map_not_mem fun hq => h (List.mem_dedup.mp hq), eq_comm]
    exact List.count_eq_zero.mpr h

theorem mkCounter_sum (ks : List Json) :
    ((mkCounter ks).map Prod.snd).sum = ks.length := by
  rw [mkCounter, List.map_map]
  exact List.sum_map_count_dedup_eq_length ks

/-- C3: the status tally conserves records: whenever the aggregation
succeeds, the sum of the counts over all labels in the tally equals the
number of input execution records — no record dropped, none double
counted. -/
theorem status_counts_conservation (es : List Json) (t : List (Json × Nat))
    (h : status_counts es = .ok t) : (t.map Prod.snd).sum = es.length := by
  rw [status_counts] at h
  cases hm : mapExcept statusKey es with
  | error err => rw [hm] at h; cases h
  | ok ks =>
    rw [hm] at h
    cases h
    rw [mkCounter_sum]
    exact mapExcept_length hm

/-- Witness for C3 at the spec's end-to-end example
`[Pass, Pass, Fail, null]`: the tally sums to 4. -/
theorem status_counts_conservation_witness :
    (([(Json.str "Pass", 2), (Json.str "Fail", 1), (Json.str "Unknown", 1)].map
        Prod.snd).sum =
      ([Json.obj [("status", Json.str "Pass")], Json.obj [("status", Json.str "Pass")],
        Json.obj [("status", Json.str "Fail")], Json.obj [("status", Json.null)]] :
        List Json).length) :=
  status_counts_conservation
    [Json.obj [("status", Json.str "Pass")], Json.obj [("status", Json.str "Pass")],
     Json.obj [("status", Json.str "Fail")], Json.obj [("status", Json.null)]]
    [(Json.str "Pass", 2), (Json.str "Fail", 1), (Json.str "Unknown", 1)] rfl

/-- C4: a record whose status field is absent, null or the empty string is
tallied under the literal label "Unknown": adding such a record to the
input increments the "Unknown" count by exactly one and leaves the count of
every other label unchanged. -/
theorem missing_or_empty_status_unknown (fl : List (String × Json))
    (es : List Json) (t tc : List (Json × Nat)) (q : Json)
    (hstatus : lookupField fl "status" = none ∨ lookupField fl "status" = some .null
      ∨ lookupField fl "status" = some (.str ""))
    (h : status_counts es = .ok t)
    (hc : status_counts (.obj fl :: es) = .ok tc)
    (hq : q ≠ .str "Unknown") :
    counterGet tc (.str "Unknown") = counterGet t (.str "Unknown") + 1
      ∧ counterGet tc q = counterGet t q := by
  have hkey : statusKey (.obj fl) = .ok (.str "Unknown") := by
    rw [statusKey, pyDictGet]
    rcases hstatus with h1 | h1 | h1 <;> rw [h1] <;> rfl
  rw [status_counts] at h hc
  cases hm : mapExcept statusKey es with
  | error err => rw [hm] at h; cases h
  | ok ks =>
    rw [hm] at h
    cases h
    rw [mapExcept, hkey, hm] at hc
    cases hc
    have hbq : (Json.str "Unknown" == q) = false :=
      beq_eq_false_iff_ne.mpr fun he => hq he.symm
    constructor
    · rw [counterGet_mkCounter, counterGet_mkCounter, List.count_cons,
        if_pos (beq_self_eq_true (Json.str "Unknown"))]
    · rw [counterGet_mkCounter, counterGet_mkCounter, List.count_cons, hbq]
      simp

/-- Witness for C4: a record with `status: null` on top of one passing
record bumps only the "Unknown" bucket. -/
theorem missing_or_empty_status_unknown_witness :
    counterGet [(Json.str "Unknown", 1), (Json.str "Pass", 1)] (.str "Unknown") =
        counterGet [(Json.str "Pass", 1)] (.str "Unknown") + 1
      ∧ counterGet [(Json.str "Unknown", 1), (Json.str "Pass", 1)] (.str "Pass") =
        counterGet [(Json.str "Pass", 1)] (.str "Pass") :=
  missing_or_empty_status_unknown [("status", Json.null)]
    [Json.obj [("status", Json.str "Pass")]]
    [(Json.str "Pass", 1)] [(Json.str "Unknown", 1), (Json.str "Pass", 1)]
    (Json.str "Pass") (Or.inr (Or.inl (by decide))) rfl rfl (by decide)

/-- Witness for C10 at the all-whitespace recipient string "  ". -/
theorem blank_mail_to_witness : parseRecipients "  " = [""] :=
  blank_mail_to_single_empty_recipient "  " (by decide)

theorem replaceLtList_no_lt : ∀ l : List Char, '<' ∉ replaceLtList l := by
  intro l
  induction l with
  | nil => simp [replaceLtList]
  | cons c rest ih =>
    rw [replaceLtList]
    by_cases hc : c = '<'
    · rw [if_pos hc]
      simp only [List.mem_cons]
      push_neg
      refine ⟨by decide, by decide, by decide, by decide, ih⟩
    · rw [if_neg hc]
      simp only [List.mem_cons]
      push_neg
      exact ⟨fun he => hc he.symm, ih⟩

/-- C8: whenever `jira_row` succeeds, the summary cell (index 1 of the row)
is a string in which every `<` has been replaced by `&lt;`: the cell
contains no `<` character at all (the replacement text itself introduces
none). -/
theorem jira_row_summary_no_lt (jb : String) (issue : Json) (row : List Json)
    (s : String) (h : jira_row jb issue = .ok row)
    (hs : row.get? 1 = some (.str s)) : '<' ∉ s.data := by
  rw [jira_row] at h
  obtain ⟨f, h1, h⟩ := pyBind_ok h
  obtain ⟨key, h2, h⟩ := pyBind_ok h
  obtain ⟨rawSummary, h3, h⟩ := pyBind_ok h
  obtain ⟨summary, h4, h⟩ := pyBind_ok h
  obtain ⟨priorityObj, h5, h⟩ := pyBind_ok h
  obtain ⟨priority, h6, h⟩ := pyBind_ok h
  obtain ⟨statusObj, h7, h⟩ := pyBind_ok h
  obtain ⟨status, h8, h⟩ := pyBind_ok h
  obtain ⟨assigneeObj, h9, h⟩ := pyBind_ok h
  obtain ⟨assignee, h10, h⟩ := pyBind_ok h
  cases h
  cases hv : pyOr rawSummary (.str "") with
  | str s0 =>
    rw [hv] at h4
    cases h4
    simp only [List.get?] at hs
    cases hs
    exact replaceLtList_no_lt s0.data
  | null => rw [hv] at h4; cases h4
  | bool b => rw [hv] at h4; cases h4
  | num n => rw [hv] at h4; cases h4
  | arr a => rw [hv] at h4; cases h4
  | obj o => rw [hv] at h4; cases h4

/-- Witness for C8: the escaped summary "a&lt;b" produced for input "a<b"
contains no `<`. -/
theorem jira_row_summary_no_lt_witness : '<' ∉ "a&lt;b".data :=
  jira_row_summary_no_lt "b"
    (.obj [("key", .str "CAM-1"), ("fields", .obj [("summary", .str "a<b")])])
    [ .str (html_link ("b" ++ "/browse/" ++ "CAM-1") "CAM-1"),
      .str "a&lt;b", .str "", .str "", .str "—" ]
    "a&lt;b" rfl rfl

/-- C6: the claim says an unassigned issue renders an em-dash assignee cell
for every representation of "unassigned".  The code achieves this only when
the `assignee` key is absent from `fields`; when the tracker returns
`"assignee": null` — the standard JSON representation of an unassigned
issue — `f.get("assignee", {})` returns `None` and `.get("displayName",
"—")` on `None` raises `AttributeError` (line 90), so the row is never
rendered.  The em-dash default in the code shows the intent the claim
states, so this is a bug in the code. -/
theorem jira_row_null_assignee_error (jb : String) :
    jira_row jb (.obj [("key", .str "CAM-7"),
        ("fields", .obj [("summary", .str "s"), ("assignee", .null)])])
      = .error .attributeError
    ∧ jira_row jb (.obj [("key", .str "CAM-7"),
        ("fields", .obj [("summary", .str "s")])])
      = .ok [ .str (html_link (jb ++ "/browse/" ++ "CAM-7") "CAM-7"),
              .str "s", .str "", .str "", .str "—" ] :=
  ⟨rfl, rfl⟩

theorem envGet_ok {env : Env} {k v : String} (h : envGet env k = .ok v) :
    (env k).isSome := by
  rw [envGet] at h
  cases he : env k with
  | none => rw [he] at h; cases h
  | some w => simp

theorem envGet_error {env : Env} {k : String} {e : PyErr}
    (h : envGet env k = .error e) : e = .keyError k := by
  rw [envGet] at h
  cases he : env k with
  | none => rw [he] at h; cases h; rfl
  | some w => rw [he] at h; cases h

theorem resolveConfig_ok_required {env : Env} {cfg : Config}
    (h : resolveConfig env = .ok cfg) : ∀ k ∈ requiredKeys, (env k).isSome := by
  intro k hk
  rw [resolveConfig] at h
  cases h1 : envGet env "JIRA_BASE" with
  | error e => rw [h1] at h; cases h
  | ok v1 =>
  rw [h1] at h
  cases h2 : envGet env "JIRA_EMAIL" with
  | error e => rw [h2] at h; cases h
  | ok v2 =>
  rw [h2] at h
  cases h3 : envGet env "JIRA_API_TOKEN" with
  | error e => rw [h3] at h; cases h
  | ok v3 =>
  rw [h3] at h
  cases h4 : envGet env "ZEPHYR_SCALE_TOKEN" with
  | error e => rw [h4] at h; cases h
  | ok v4 =>
  rw [h4] at h
  cases h5 : envGet env "SMTP_HOST" with
  | error e => rw [h5] at h; cases h
  | ok v5 =>
  rw [h5] at h
  cases hp : pyIntParse ((env "SMTP_PORT").getD "587") with
  | error e => rw [hp] at h; cases h
  | ok port =>
  rw [hp] at h
  cases h6 : envGet env "SMTP_USER" with
  | error e => rw [h6] at h; cases h
  | ok v6 =>
  rw [h6] at h
  cases h7 : envGet env "SMTP_PASS" with
  | error e => rw [h7] at h; cases h
  | ok v7 =>
  rw [h7] at h
  cases h8 : envGet env "MAIL_TO" with
  | error e => rw [h8] at h; cases h
  | ok v8 =>
  simp only [requiredKeys, List.mem_cons] at hk
  rcases hk with rfl | rfl | rfl | rfl | rfl | rfl | rfl | rfl | h0
  · exact envGet_ok h1
  · exact envGet_ok h2
  · exact envGet_ok h3
  · exact envGet_ok h4
  · exact envGet_ok h5
  · exact envGet_ok h6
  · exact envGet_ok h7
  · exact envGet_ok h8
  · cases h0

/-- A failing configuration resolution fails with either a missing-key
lookup error or the `ValueError` of the port conversion — never anything
else. -/
theorem resolveConfig_error_kind {env : Env} {e : PyErr}
    (h : resolveConfig env = .error e) :
    (∃ k, e = .keyError k) ∨ e = .valueError := by
  rw [resolveConfig] at h
  cases h1 : envGet env "JIRA_BASE" with
  | error e1 => rw [h1] at h; cases h; exact Or.inl ⟨_, envGet_error h1⟩
  | ok v1 =>
  rw [h1] at h
  cases h2 : envGet env "JIRA_EMAIL" with
  | error e2 => rw [h2] at h; cases h; exact Or.inl ⟨_, envGet_error h2⟩
  | ok v2 =>
  rw [h2] at h
  cases h3 : envGet env "JIRA_API_TOKEN" with
  | error e3 => rw [h3] at h; cases h; exact Or.inl ⟨_, envGet_error h3⟩
  | ok v3 =>
  rw [h3] at h
  cases h4 : envGet env "ZEPHYR_SCALE_TOKEN" with
  | error e4 => rw [h4] at h; cases h; exact Or.inl ⟨_, envGet_error h4⟩
  | ok v4 =>
  rw [h4] at h
  cases h5 : envGet env "SMTP_HOST" with
  | error e5 => rw [h5] at h; cases h; exact Or.inl ⟨_, envGet_error h5⟩
  | ok v5 =>
  rw [h5] at h
  cases hp : pyIntParse ((env "SMTP_PORT").getD "587") with
  | error ep =>
    rw [hp] at h
    cases h
    exact Or.inr (pyIntParse_error hp)
  | ok port =>
  rw [hp] at h
  cases h6 : envGet env "SMTP_USER" with
  | error e6 => rw [h6] at h; cases h; exact Or.inl ⟨_, envGet_error h6⟩
  | ok v6 =>
  rw [h6] at h
  cases h7 : envGet env "SMTP_PASS" with
  | error e7 => rw [h7] at h; cases h; exact Or.inl ⟨_, envGet_error h7⟩
  | ok v7 =>
  rw [h7] at h
  cases h8 : envGet env "MAIL_TO" with
  | error e8 => rw [h8] at h; cases h; exact Or.inl ⟨_, envGet_error h8⟩
  | ok v8 =>
  rw [h8] at h
  cases h

/-- When the configured port value does convert to an integer, a failing
configuration resolution can only be a missing-key lookup error. -/
theorem resolveConfig_error_keyError {env : Env} {e : PyErr} {n : Int}
    (hport : pyIntParse ((env "SMTP_PORT").getD "587") = .ok n)
    (h : resolveConfig env = .error e) : ∃ k, e = .keyError k := by
  rcases resolveConfig_error_kind h with hk | hv
  · exact hk
  · exfalso
    subst hv
    rw [resolveConfig] at h
    cases h1 : envGet env "JIRA_BASE" with
    | error e1 => rw [h1] at h; cases h; cases envGet_error h1
    | ok v1 =>
    rw [h1] at h
    cases h2 : envGet env "JIRA_EMAIL" with
    | error e2 => rw [h2] at h; cases h; cases envGet_error h2
    | ok v2 =>
    rw [h2] at h
    cases h3 : envGet env "JIRA_API_TOKEN" with
    | error e3 => rw [h3] at h; cases h; cases envGet_error h3
    | ok v3 =>
    rw [h3] at h
    cases h4 : envGet env "ZEPHYR_SCALE_TOKEN" with
    | error e4 => rw [h4] at h; cases h; cases envGet_error h4
    | ok v4 =>
    rw [h4] at h
    cases h5 : envGet env "SMTP_HOST" with
    | error e5 => rw [h5] at h; cases h; cases envGet_error h5
    | ok v5 =>
    rw [h5] at h
    rw [hport] at h
    cases h6 : envGet env "SMTP_USER" with
    | error e6 => rw [h6] at h; cases h; cases envGet_error h6
    | ok v6 =>
    rw [h6] at h
    cases h7 : envGet env "SMTP_PASS" with
    | error e7 => rw [h7] at h; cases h; cases envGet_error h7
    | ok v7 =>
    rw [h7] at h
    cases h8 : envGet env "MAIL_TO" with
    | error e8 => rw [h8] at h; cases h; cases envGet_error h8
    | ok v8 =>
    rw [h8] at h
    cases h

/-- `true` exactly when the script result is a missing-key lookup failure
(a `KeyError`). -/
def isKeyError : Except PyErr EmailMsg → Bool
  | .error (.keyError _) => true
  | _ => false

/-- `true` exactly when the script result is one of the two configuration
failures: a missing-key lookup error or the port-conversion `ValueError`. -/
def isConfigError : Except PyErr EmailMsg → Bool
  | .error (.keyError _) => true
  | .error .valueError => true
  | _ => false

/-- `true` exactly when Python `int(s)` succeeds on `s`. -/
def parsesAsInt (s : String) : Bool :=
  match pyIntParse s with
  | .ok _ => true
  | .error _ => false

theorem parsesAsInt_ok {s : String} (h : parsesAsInt s = true) :
    ∃ n, pyIntParse s = .ok n := by
  rw [parsesAsInt] at h
  cases hp : pyIntParse s with
  | ok n => exact ⟨n, rfl⟩
  | error e => rw [hp] at h; cases h

/-- C2 counterexample: with every variable up to the mail host present,
`SMTP_PORT` set to the non-integer string "abc" and the required
`SMTP_USER` absent, the program fails with the port-conversion
`ValueError` (line 28) — not with a missing-key lookup error — though
still before any network request. -/
def envBadPort : Env := fun k =>
  if k = "JIRA_BASE" then some "https://jira.example"
  else if k = "JIRA_EMAIL" then some "qa@example.com"
  else if k = "JIRA_API_TOKEN" then some "tok"
  else if k = "ZEPHYR_SCALE_TOKEN" then some "ztok"
  else if k = "SMTP_HOST" then some "smtp.example"
  else if k = "SMTP_PORT" then some "abc"
  else none

/-- C2 counterexample: a required key (`SMTP_USER`) is absent, yet the run
fails with `ValueError`, not a missing-key lookup error; the network trace
is still empty. -/
theorem missing_required_key_valueError :
    "SMTP_USER" ∈ requiredKeys
      ∧ envBadPort "SMTP_USER" = none
      ∧ (runScript envBadPort "2025-06-01" .null .null .null).1 = []
      ∧ (runScript envBadPort "2025-06-01" .null .null .null).2
          = .error .valueError
      ∧ isKeyError (runScript envBadPort "2025-06-01" .null .null .null).2
          = false :=
  ⟨by decide, rfl, rfl, rfl, rfl⟩

/-- C2 amended: when any of the eight required configuration variables is
absent from the environment, the run fails before issuing any network
request — the trace of network operations (HTTP calls and mail-session
operations alike) is empty — with one of the two configuration failures;
and whenever the configured `SMTP_PORT` value (default "587") converts to
an integer, that failure is precisely the missing-key lookup error the
claim describes.  (When `SMTP_PORT` is set to a non-integer string the
failure can instead be the `int()` `ValueError` of line 28, as the
counterexample shows.) -/
theorem missing_required_key_no_network (env : Env) (today : String)
    (r1 r2 rz : Json) (k : String) (hk : k ∈ requiredKeys)
    (hmiss : env k = none) :
    (runScript env today r1 r2 rz).1 = []
      ∧ isConfigError (runScript env today r1 r2 rz).2 = true
      ∧ (parsesAsInt ((env "SMTP_PORT").getD "587") = true
          → isKeyError (runScript env today r1 r2 rz).2 = true) := by
  cases hrc : resolveConfig env with
  | ok cfg =>
    exfalso
    have := resolveConfig_ok_required hrc k hk
    rw [hmiss] at this
    cases this
  | error e =>
    rw [runScript, hrc]
    refine ⟨rfl, ?_, ?_⟩
    · rcases resolveConfig_error_kind hrc with ⟨k2, rfl⟩ | rfl <;> rfl
    · intro hport
      obtain ⟨n, hn⟩ := parsesAsInt_ok hport
      obtain ⟨k2, rfl⟩ := resolveConfig_error_keyError hn hrc
      rfl

/-- Witness for C2 (amended) in an empty environment: no network
operation, a configuration failure, and — since the default port "587"
parses — specifically a `KeyError`. -/
theorem missing_required_key_no_network_witness :
    (runScript (fun _ => none) "2025-06-01" .null .null .null).1 = []
      ∧ isConfigError
          (runScript (fun _ => none) "2025-06-01" .null .null .null).2 = true
      ∧ (parsesAsInt (((fun _ => none : Env) "SMTP_PORT").getD "587") = true
          → isKeyError
              (runScript (fun _ => none) "2025-06-01" .null .null .null).2
              = true) :=
  missing_required_key_no_network (fun _ => none) "2025-06-01" .null .null .null
    "JIRA_BASE" (by decide) rfl

/-! # Counting body rows: occurrences of the row-opening tag -/

/-- The character pattern of the row-opening tag. -/
def trPat : List Char := ['<', 't', 'r', '>']

/-- Number of positions at which `pat` occurs in `l`. -/
def countOcc (pat : List Char) : List Char → Nat
  | [] => 0
  | c :: rest => (if pat <+: (c :: rest) then 1 else 0) + countOcc pat rest

/-- Number of occurrences of the row-opening tag. -/
def countTR (l : List Char) : Nat := countOcc trPat l

theorem trPat_eq : trPat = '<' :: 't' :: 'r' :: '>' :: [] := rfl

/-- A list without an occurrence of the row-opening tag has count zero. -/
theorem countTR_eq_zero_of_not_infix {l : List Char} (h : ¬ trPat <:+: l) :
    countTR l = 0 := by
  induction l with
  | nil => rfl
  | cons c rest ih =>
    rw [countTR, countOcc, if_neg fun hp => h hp.isInfix, Nat.zero_add]
    exact ih fun hi => h (List.infix_cons hi)

/-- No nonempty strict partial match of `pat` dangles at the end of `s`:
every suffix of `s` that is a prefix of `pat` is trivial or all of `pat`.
Appending anything to such an `s` cannot create an occurrence that spans
the boundary. -/
def SpanFree (pat s : List Char) : Prop :=
  ∀ t, t <:+ s → t <+: pat → t = [] ∨ t = pat

/-- Executable check for `SpanFree`. -/
def spanFreeB (pat s : List Char) : Bool :=
  s.tails.all fun t => !(decide (t <+: pat)) || decide (t = []) || decide (t = pat)

theorem spanFree_of_B {pat s : List Char} (h : spanFreeB pat s = true) :
    SpanFree pat s := by
  intro t hts htp
  have h2 := List.all_eq_true.mp h t ((List.mem_tails t s).mpr hts)
  simp only [Bool.or_eq_true, Bool.not_eq_true', decide_eq_true_eq,
    decide_eq_false_iff_not] at h2
  rcases h2 with (h2 | h2) | h2
  · exact absurd htp h2
  · exact Or.inl h2
  · exact Or.inr h2

theorem prefix_of_append_of_le {p x b : List Char} (h : p <+: x ++ b)
    (hl : p.length ≤ x.length) : p <+: x := by
  have h1 := List.prefix_iff_eq_take.mp h
  rw [List.take_append_of_le_length hl] at h1
  rw [h1]
  exact List.take_prefix _ _

theorem countTR_append_spanFree :
    ∀ {a : List Char}, SpanFree trPat a → ∀ b,
      countTR (a ++ b) = countTR a + countTR b := by
  intro a
  induction a with
  | nil => intro _ b; simp [countTR, countOcc]
  | cons c a ih =>
    intro hsf b
    have hsf0 : SpanFree trPat a :=
      fun t hts htp => hsf t (hts.trans (List.suffix_cons c a)) htp
    have hif : (trPat <+: c :: (a ++ b)) ↔ (trPat <+: c :: a) := by
      constructor
      · intro hp
        rw [← List.cons_append] at hp
        by_cases hlen : trPat.length ≤ (c :: a).length
        · exact prefix_of_append_of_le hp hlen
        · have hca : (c :: a) <+: trPat :=
            List.prefix_of_prefix_length_le (List.prefix_append _ _) hp
              (le_of_lt (lt_of_not_ge hlen))
          rcases hsf (c :: a) (List.suffix_refl _) hca with h0 | h0
          · cases h0
          · rw [h0]
      · intro hp
        exact hp.trans ⟨b, by rw [List.cons_append]⟩
    rw [List.cons_append]
    simp only [countTR]
    rw [countOcc, countOcc]
    by_cases hc : trPat <+: c :: a
    · rw [if_pos (hif.mpr hc), if_pos hc]
      have h3 := ih hsf0 b
      simp only [countTR] at h3
      omega
    · rw [if_neg (fun hp => hc (hif.mp hp)), if_neg hc]
      have h3 := ih hsf0 b
      simp only [countTR] at h3
      omega

/-- Splitting `countTR` at the right edge of a concrete segment. -/
theorem countTR_seg (S : String) (hS : spanFreeB trPat S.data = true)
    (b : List Char) : countTR (S.data ++ b) = countTR S.data + countTR b :=
  countTR_append_spanFree (spanFree_of_B hS) b

/-- Splitting `countTR` at a boundary whose right side starts with `<`:
an occurrence of `<tr>` cannot straddle such a boundary, because a
straddling occurrence would need the right side to start with `t`, `r`
or `>`. -/
theorem countTR_append_head_lt : ∀ (a b : List Char), b.head? = some '<' →
    countTR (a ++ b) = countTR a + countTR b := by
  intro a
  induction a with
  | nil => intro b _; simp [countTR, countOcc]
  | cons c a ih =>
    intro b hb
    obtain ⟨bs, rfl⟩ : ∃ bs, b = '<' :: bs := by
      cases b with
      | nil => cases hb
      | cons b0 bs => cases hb; exact ⟨bs, rfl⟩
    have hif : (trPat <+: c :: (a ++ '<' :: bs)) ↔ (trPat <+: c :: a) := by
      constructor
      · intro hp
        rw [← List.cons_append] at hp
        by_cases hlen : trPat.length ≤ (c :: a).length
        · exact prefix_of_append_of_le hp hlen
        · exfalso
          have hca : (c :: a) <+: trPat :=
            List.prefix_of_prefix_length_le (List.prefix_append _ _) hp
              (le_of_lt (lt_of_not_ge hlen))
          rw [trPat_eq] at hca hp
          cases a with
          | nil =>
            obtain ⟨hc, -⟩ := List.cons_prefix_cons.mp hca
            subst hc
            rw [List.cons_append, List.nil_append] at hp
            obtain ⟨-, hp2⟩ := List.cons_prefix_cons.mp hp
            obtain ⟨ht, -⟩ := List.cons_prefix_cons.mp hp2
            exact absurd ht (by decide)
          | cons c2 a2 =>
            cases a2 with
            | nil =>
              obtain ⟨hc, hca2⟩ := List.cons_prefix_cons.mp hca
              obtain ⟨hc2, -⟩ := List.cons_prefix_cons.mp hca2
              subst hc
              subst hc2
              rw [List.cons_append, List.cons_append, List.nil_append] at hp
              obtain ⟨-, hp2⟩ := List.cons_prefix_cons.mp hp
              obtain ⟨-, hp3⟩ := List.cons_prefix_cons.mp hp2
              obtain ⟨hr, -⟩ := List.cons_prefix_cons.mp hp3
              exact absurd hr (by decide)
            | cons c3 a3 =>
              cases a3 with
              | nil =>
                obtain ⟨hc, hca2⟩ := List.cons_prefix_cons.mp hca
                obtain ⟨hc2, hca3⟩ := List.cons_prefix_cons.mp hca2
                obtain ⟨hc3, -⟩ := List.cons_prefix_cons.mp hca3
                subst hc
                subst hc2
                subst hc3
                rw [List.cons_append, List.cons_append, List.cons_append,
                  List.nil_append] at hp
                obtain ⟨-, hp2⟩ := List.cons_prefix_cons.mp hp
                obtain ⟨-, hp3⟩ := List.cons_prefix_cons.mp hp2
                obtain ⟨-, hp4⟩ := List.cons_prefix_cons.mp hp3
                obtain ⟨hgt, -⟩ := List.cons_prefix_cons.mp hp4
                exact absurd hgt (by decide)
              | cons c4 a4 =>
                exact hlen (by
                  simp only [trPat_eq, List.length_cons, List.length_nil]
                  omega)
      · intro hp
        exact hp.trans ⟨'<' :: bs, by rw [List.cons_append]⟩
    rw [List.cons_append]
    simp only [countTR]
    rw [countOcc, countOcc]
    by_cases hc : trPat <+: c :: a
    · rw [if_pos (hif.mpr hc), if_pos hc]
      have h3 := ih ('<' :: bs) rfl
      simp only [countTR] at h3
      omega
    · rw [if_neg (fun hp => hc (hif.mp hp)), if_neg hc]
      have h3 := ih ('<' :: bs) rfl
      simp only [countTR] at h3
      omega


theorem sjoin_append : ∀ (a b : List String), sjoin (a ++ b) = sjoin a ++ sjoin b
  | [], b => by simp [sjoin]
  | x :: a, b => by
    rw [List.cons_append, sjoin, sjoin, sjoin_append a b, String.append_assoc]

theorem countTR_cells {r : List Json}
    (h : ∀ cell ∈ r, ¬ trPat <:+: (pyStr cell).data) (b : List Char) :
    countTR ((sjoin (r.map fun cell => "<td>" ++ pyStr cell ++ "</td>")).data ++ b)
      = countTR b := by
  induction r with
  | nil => rfl
  | cons cell r ih =>
    rw [List.map_cons, sjoin, String.data_append, String.data_append,
      String.data_append, List.append_assoc, List.append_assoc, List.append_assoc]
    rw [countTR_seg "<td>" (by decide), show countTR "<td>".data = 0 from by decide,
      Nat.zero_add]
    rw [countTR_append_head_lt ((pyStr cell).data)
        ("</td>".data
          ++ ((sjoin (r.map fun cell => "<td>" ++ pyStr cell ++ "</td>")).data ++ b))
        rfl,
      countTR_eq_zero_of_not_infix (h cell (List.mem_cons_self _ _)),
      Nat.zero_add]
    rw [countTR_seg "</td>" (by decide),
      show countTR "</td>".data = 0 from by decide, Nat.zero_add]
    exact ih fun c hc0 => h c (List.mem_cons_of_mem _ hc0)

theorem countTR_headers {hs : List String} (h : ∀ x ∈ hs, ¬ trPat <:+: x.data)
    (b : List Char) :
    countTR ((sjoin (hs.map thCell)).data ++ b) = countTR b := by
  induction hs with
  | nil => rfl
  | cons x hs ih =>
    rw [List.map_cons, sjoin, thCell, String.data_append, String.data_append,
      String.data_append, List.append_assoc, List.append_assoc, List.append_assoc]
    rw [countTR_seg "<th>" (by decide), show countTR "<th>".data = 0 from by decide,
      Nat.zero_add]
    rw [countTR_append_head_lt x.data
        ("</th>".data ++ ((sjoin (hs.map thCell)).data ++ b)) rfl,
      countTR_eq_zero_of_not_infix (h x (List.mem_cons_self _ _)),
      Nat.zero_add]
    rw [countTR_seg "</th>" (by decide),
      show countTR "</th>".data = 0 from by decide, Nat.zero_add]
    exact ih fun y hy => h y (List.mem_cons_of_mem _ hy)

theorem countTR_trRow {r : List Json}
    (h : ∀ cell ∈ r, ¬ trPat <:+: (pyStr cell).data) (b : List Char) :
    countTR ((trRow r).data ++ b) = 1 + countTR b := by
  rw [trRow, String.data_append, String.data_append, List.append_assoc,
    List.append_assoc]
  rw [countTR_seg "<tr>" (by decide), show countTR "<tr>".data = 1 from by decide]
  rw [countTR_cells h]
  rw [countTR_seg "</tr>" (by decide), show countTR "</tr>".data = 0 from by decide,
    Nat.zero_add]

theorem countTR_rows {rows : List (List Json)}
    (h : ∀ r ∈ rows, ∀ cell ∈ r, ¬ trPat <:+: (pyStr cell).data) (b : List Char) :
    countTR ((sjoin (rows.map trRow)).data ++ b) = rows.length + countTR b := by
  induction rows with
  | nil => exact (Nat.zero_add _).symm
  | cons r rows ih =>
    rw [List.map_cons, sjoin, String.data_append, List.append_assoc]
    rw [countTR_trRow (h r (List.mem_cons_self _ _))]
    rw [ih fun r0 hr0 => h r0 (List.mem_cons_of_mem _ hr0)]
    rw [List.length_cons]
    omega

/-- The normalized character-level structure of a rendered table. -/
theorem to_table_data (rows : List (List Json)) (hs : List String) :
    (to_table rows hs).data =
      "<table border='1' cellspacing='0' cellpadding='6'>".data
        ++ ("<thead><tr>".data
        ++ ((sjoin (hs.map thCell)).data
        ++ ("</tr></thead>".data
        ++ ("<tbody>".data
        ++ ((sjoin (rows.map trRow)).data
        ++ ("</tbody>".data ++ "</table>".data)))))) := by
  rw [to_table]
  simp only [String.data_append, List.append_assoc]

/-- Everything of the rendered table that precedes the i-th body row. -/
def tableBefore (hs : List String) (rows : List (List Json)) (i : Nat) : List Char :=
  "<table border='1' cellspacing='0' cellpadding='6'>".data ++ ("<thead><tr>".data
    ++ ((sjoin (hs.map thCell)).data ++ ("</tr></thead>".data ++ ("<tbody>".data
    ++ (sjoin ((rows.take i).map trRow)).data))))

/-- Everything of the rendered table that follows the i-th body row. -/
def tableAfter (rows : List (List Json)) (i : Nat) : List Char :=
  (sjoin ((rows.drop (i + 1)).map trRow)).data
    ++ ("</tbody>".data ++ "</table>".data)

/-- C7: table rendering with zero rows still yields a table element with an
explicitly empty body (`<tbody></tbody>` appears in the output); with N
input rows the output contains exactly 1 + N occurrences of the
row-opening tag `<tr>` (the header row plus one body row per input row),
and the i-th input row's rendering appears verbatim after exactly 1 + i
row openings — body rows appear in input order.  The only side condition
is that no header label and no rendered cell contains the four-character
substring `<tr>` itself; this holds in particular for every row the
script builds with `jira_row`, whose raw-HTML key cell is an `<a>`
hyperlink. -/
theorem to_table_shape (hs : List String) (rows : List (List Json)) (i : Nat)
    (hi : i < rows.length)
    (hh : ∀ x ∈ hs, ¬ trPat <:+: x.data)
    (hc : ∀ r ∈ rows, ∀ cell ∈ r, ¬ trPat <:+: (pyStr cell).data) :
    ("<tbody></tbody>".data <:+: (to_table [] hs).data)
      ∧ countTR (to_table rows hs).data = 1 + rows.length
      ∧ (to_table rows hs).data
          = tableBefore hs rows i
            ++ ((trRow (rows.get ⟨i, hi⟩)).data ++ tableAfter rows i)
      ∧ countTR (tableBefore hs rows i) = 1 + i := by
  refine ⟨?_, ?_, ?_, ?_⟩
  · refine ⟨"<table border='1' cellspacing='0' cellpadding='6'>".data
        ++ ("<thead><tr>".data
          ++ ((sjoin (hs.map thCell)).data ++ "</tr></thead>".data)),
      "</table>".data, ?_⟩
    rw [to_table_data,
      show ("<tbody></tbody>".data : List Char)
        = "<tbody>".data ++ "</tbody>".data from by decide]
    simp [List.append_assoc, sjoin]
  · rw [to_table_data,
      countTR_seg "<table border='1' cellspacing='0' cellpadding='6'>" (by decide),
      countTR_seg "<thead><tr>" (by decide),
      countTR_headers hh,
      countTR_seg "</tr></thead>" (by decide),
      countTR_seg "<tbody>" (by decide),
      countTR_rows hc,
      show countTR ("</tbody>".data ++ "</table>".data) = 0 from by decide,
      show countTR "<table border='1' cellspacing='0' cellpadding='6'>".data = 0
        from by decide,
      show countTR "<thead><tr>".data = 1 from by decide,
      show countTR "</tr></thead>".data = 0 from by decide,
      show countTR "<tbody>".data = 0 from by decide]
    omega
  · have hsplit : rows.take i ++ rows.get ⟨i, hi⟩ :: rows.drop (i + 1) = rows := by
      rw [List.get_eq_getElem, ← List.drop_eq_getElem_cons hi,
        List.take_append_drop]
    rw [to_table_data, tableBefore, tableAfter]
    conv_lhs => rw [← hsplit]
    rw [List.map_append, List.map_cons, sjoin_append, sjoin, String.data_append,
      String.data_append]
    simp [List.append_assoc]
  · have htake : ∀ r ∈ rows.take i, ∀ cell ∈ r, ¬ trPat <:+: (pyStr cell).data :=
      fun r hr => hc r (List.take_subset i rows hr)
    have hrows := countTR_rows htake ([] : List Char)
    rw [List.append_nil] at hrows
    rw [tableBefore,
      countTR_seg "<table border='1' cellspacing='0' cellpadding='6'>" (by decide),
      countTR_seg "<thead><tr>" (by decide),
      countTR_headers hh,
      countTR_seg "</tr></thead>" (by decide),
      countTR_seg "<tbody>" (by decide),
      hrows,
      show countTR "<table border='1' cellspacing='0' cellpadding='6'>".data = 0
        from by decide,
      show countTR "<thead><tr>".data = 1 from by decide,
      show countTR "</tr></thead>".data = 0 from by decide,
      show countTR "<tbody>".data = 0 from by decide,
      List.length_take,
      show countTR ([] : List Char) = 0 from rfl]
    omega

/-- Witness for C7 at the five report headers and one row exactly as
`jira_row` renders it — its key cell is raw `<a>` markup containing `<`. -/
theorem to_table_shape_witness :
    ("<tbody></tbody>".data
        <:+: (to_table [] ["Key", "Summary", "Priority", "Status", "Assignee"]).data)
      ∧ countTR (to_table
            [[Json.str "<a href='https://j/browse/CAM-1'>CAM-1</a>",
              Json.str "a&lt;b", Json.str "", Json.str "", Json.str "—"]]
            ["Key", "Summary", "Priority", "Status", "Assignee"]).data
          = 1 + ([[Json.str "<a href='https://j/browse/CAM-1'>CAM-1</a>",
              Json.str "a&lt;b", Json.str "", Json.str "", Json.str "—"]] :
              List (List Json)).length
      ∧ (to_table
            [[Json.str "<a href='https://j/browse/CAM-1'>CAM-1</a>",
              Json.str "a&lt;b", Json.str "", Json.str "", Json.str "—"]]
            ["Key", "Summary", "Priority", "Status", "Assignee"]).data
          = tableBefore ["Key", "Summary", "Priority", "Status", "Assignee"]
              [[Json.str "<a href='https://j/browse/CAM-1'>CAM-1</a>",
                Json.str "a&lt;b", Json.str "", Json.str "", Json.str "—"]] 0
            ++ ((trRow (([[Json.str "<a href='https://j/browse/CAM-1'>CAM-1</a>",
                  Json.str "a&lt;b", Json.str "", Json.str "", Json.str "—"]] :
                  List (List Json)).get ⟨0, by decide⟩)).data
              ++ tableAfter
                  [[Json.str "<a href='https://j/browse/CAM-1'>CAM-1</a>",
                    Json.str "a&lt;b", Json.str "", Json.str "", Json.str "—"]] 0)
      ∧ countTR (tableBefore ["Key", "Summary", "Priority", "Status", "Assignee"]
            [[Json.str "<a href='https://j/browse/CAM-1'>CAM-1</a>",
              Json.str "a&lt;b", Json.str "", Json.str "", Json.str "—"]] 0)
          = 1 + 0 :=
  to_table_shape ["Key", "Summary", "Priority", "Status", "Assignee"]
    [[Json.str "<a href='https://j/browse/CAM-1'>CAM-1</a>",
      Json.str "a&lt;b", Json.str "", Json.str "", Json.str "—"]] 0
    (by decide) (by decide) (by decide)

end DailyCamReport
